import Mathlib

/-!
Verification of the computational kernel of the biopai repository
(`bioprocess-app.py`): the bioprocess simulator `simulate_bioprocess`
and the configuration-export dictionary `config_data`, together with
the `feed_control` binding rule that guards the export path.

Sample values drawn by `np.random.rand` are modelled as an abstract
stream of rationals together with a cursor into it: numpy's global
generator yields a fixed sequence of uniform draws in [0,1), and each
call to `np.random.rand(n)` consumes the next `n` entries and advances
the cursor.  Real-number curve formulas stated by the specification
are embedded separately over `Real` for comparison.
-/

namespace Biopai

/-- State of the numpy global random generator, modelled as the infinite
stream of uniform draws it will produce and the position of the next
draw.  `np.random.rand` guarantees each draw lies in [0,1); that fact is
recorded as the separate predicate `RandState.valid`. -/
structure RandState where
  stream : Nat → ℚ
  pos : Nat

/-- Fact guaranteed by numpy about its generator: every draw produced by
`np.random.rand` lies in the half-open interval [0,1). -/
def RandState.valid (s : RandState) : Prop :=
  ∀ n : Nat, 0 ≤ s.stream n ∧ s.stream n < 1

/-- Embedding of `np.random.rand(n)` for an integer `n`: for `n < 0`
numpy raises `ValueError: negative dimensions are not allowed`;
otherwise it returns the next `n` draws of the global generator and
advances its state. -/
def npRandomRand (n : Int) (s : RandState) : Except String (List ℚ × RandState) :=
  if n < 0 then
    Except.error "ValueError: negative dimensions are not allowed"
  else
    Except.ok ((List.range n.toNat).map (fun i => s.stream (s.pos + i)),
      ⟨s.stream, s.pos + n.toNat⟩)

/-- Embedding of `np.arange(0, hi)` for an integer `hi`: the integers
`0, 1, ..., hi - 1` (empty when `hi ≤ 0`). -/
def npArange (hi : Int) : List Int :=
  (List.range hi.toNat).map Int.ofNat

/-- Configuration dictionary passed to `simulate_bioprocess` by the
"Simulate Bioprocess" button handler (keys `temp_range`, `ph_range`,
`do_setpoint`, `agitation`, `aeration`, `duration`,
`temperature_control`, `pH_control`).  The function body reads only
`duration`. -/
structure SimConfig where
  temp_range : ℚ × ℚ
  ph_range : ℚ × ℚ
  do_setpoint : Int
  agitation : Int
  aeration : ℚ
  duration : Int
  temperature_control : ℚ
  pH_control : ℚ

/-- Result record of `simulate_bioprocess`: the six arrays it returns,
in source order. -/
structure SimOutput where
  time : List Int
  biomass : List ℚ
  glucose : List ℚ
  oxygen : List ℚ
  lactate : List ℚ
  ammonia : List ℚ
deriving DecidableEq

/-- Embedding of `simulate_bioprocess(config)` (bioprocess-app.py lines
411-419).  The source draws five fresh blocks of uniform random samples
from the numpy global generator and scales them:
`time = np.arange(0, duration)`, `biomass = rand(duration) * 100`,
`glucose = rand(duration) * 10`, `oxygen = rand(duration) * 100`,
`lactate = rand(duration) * 5`, `ammonia = rand(duration) * 2`.
The generator state is threaded explicitly; the Python original reads
and advances it as hidden global state. -/
def simulate_bioprocess (config : SimConfig) (s : RandState) :
    Except String (SimOutput × RandState) := do
  let time := npArange config.duration
  let (b, s1) ← npRandomRand config.duration s
  let biomass := b.map (fun r => r * 100)
  let (g, s2) ← npRandomRand config.duration s1
  let glucose := g.map (fun r => r * 10)
  let (o, s3) ← npRandomRand config.duration s2
  let oxygen := o.map (fun r => r * 100)
  let (l, s4) ← npRandomRand config.duration s3
  let lactate := l.map (fun r => r * 5)
  let (a, s5) ← npRandomRand config.duration s4
  let ammonia := a.map (fun r => r * 2)
  return (⟨time, biomass, glucose, oxygen, lactate, ammonia⟩, s5)

/-- JSON-serializable values appearing in the exported `config_data`
dictionary: strings, integers, floats, numeric pairs (the range
sliders), and string-to-bool maps (the checkbox groups). -/
inductive JVal where
  | str (s : String)
  | int (n : Int)
  | num (q : ℚ)
  | pair (a b : ℚ)
  | boolMap (m : List (String × Bool))
deriving DecidableEq

/-- Embedding of the `feed_control` assignment (bioprocess-app.py lines
567-571): the name `feed_control` is bound (to the selected feed-control
method) only when the process type is Fed-batch Culture or Perfusion
Culture; for every other process type the name stays unbound, modelled
as `none`. -/
def feed_control_binding (process_type : String) (choice : String) : Option String :=
  if process_type = "Fed-batch Culture" ∨ process_type = "Perfusion Culture" then
    some choice
  else
    none

/-- Script environment visible to the "Download Configuration" handler:
the widget-bound names it reads.  `feed_control` is `Option`-valued
because the script binds that name only conditionally (see
`feed_control_binding`). -/
structure AppEnv where
  process_type : String
  organism_type : String
  scale : String
  temp_range : ℚ × ℚ
  ph_range : ℚ × ℚ
  do_setpoint : Int
  agitation : Int
  aeration : ℚ
  duration : Int
  feed_control : Option String
  online_measurements : List (String × Bool)
  sampling_interval : ℚ
  data_analysis : List (String × Bool)
  safety_features : List (String × Bool)

/-- Embedding of the `config_data` dictionary display written in the
"Download Configuration" handler (bioprocess-app.py lines 489-507), as
a function of the environment the handler runs in.  Evaluating the
display reads the name `feed_control`; when that name is unbound the
statement raises `NameError` and no dictionary is produced, and only
when the name is bound would Python build the fourteen key/value
entries in source order with the raw widget values.  In the program the
error branch is the one taken on every run: Streamlit re-executes the
whole script top to bottom in a fresh namespace on each interaction,
and the handler at line 489 runs before the assignment to
`feed_control` at lines 567-571 (and before `online_measurements`,
`sampling_interval`, `data_analysis` and `safety_features`), so the
success branch is never reached — see `download_env`. -/
def config_data (env : AppEnv) : Except String (List (String × JVal)) :=
  match env.feed_control with
  | none => Except.error "NameError: name feed_control is not defined"
  | some fc => Except.ok
      [("process_type", JVal.str env.process_type),
       ("organism_type", JVal.str env.organism_type),
       ("scale", JVal.str env.scale),
       ("temp_range", JVal.pair env.temp_range.1 env.temp_range.2),
       ("ph_range", JVal.pair env.ph_range.1 env.ph_range.2),
       ("do_setpoint", JVal.int env.do_setpoint),
       ("agitation", JVal.int env.agitation),
       ("aeration", JVal.num env.aeration),
       ("duration", JVal.int env.duration),
       ("feed_control", JVal.str fc),
       ("online_measurements", JVal.boolMap env.online_measurements),
       ("sampling_interval", JVal.num env.sampling_interval),
       ("data_analysis", JVal.boolMap env.data_analysis),
       ("safety_features", JVal.boolMap env.safety_features)]

/-- Biomass curve the specification prescribes for the profile
calculator: logistic growth `K / (1 + ((K - X0)/X0) * exp(-mu * t))`
with X0 = 0.1, mu = 0.1, K = 10. -/
noncomputable def specBiomass (t : ℝ) : ℝ :=
  10 / (1 + ((10 - 1/10) / (1/10)) * Real.exp (-(1/10) * t))

/-- Substrate curve the specification prescribes: exponential decay
`S0 * exp(-k_s * t)` with S0 = 10, k_s = 0.05. -/
noncomputable def specSubstrate (t : ℝ) : ℝ :=
  10 * Real.exp (-(1/20) * t)

/-- Product curve the specification prescribes: saturating exponential
`K * (1 - exp(-k_p * t))` with K = 10, k_p = 0.03. -/
noncomputable def specProduct (t : ℝ) : ℝ :=
  10 * (1 - Real.exp (-(3/100) * t))

/-- Concrete generator state used for counterexamples: draws
1/2, 1/3, 1/4, ... — all in [0,1) — starting at position 0. -/
def st0 : RandState :=
  ⟨fun n => 1 / ((n : ℚ) + 2), 0⟩

/-- Concrete simulator configuration with the widget default values and
a chosen duration. -/
def cfg (d : Int) : SimConfig :=
  ⟨(30, 37), (34/5, 36/5), 40, 200, 1/2, d, 37, 36/5⟩

/-- Value of `simulate_bioprocess` on `cfg 1` and `st0`: the five draws
1/2, 1/3, 1/4, 1/5, 1/6 scaled by 100, 10, 100, 5, 2. -/
def out1 : SimOutput :=
  ⟨[0], [50], [10/3], [25], [1], [1/3]⟩

/-- Value of `simulate_bioprocess` on `cfg 2` and `st0`: the ten draws
1/2, ..., 1/11 in blocks of two, scaled by 100, 10, 100, 5, 2. -/
def out2 : SimOutput :=
  ⟨[0, 1], [50, 100/3], [5/2, 2], [50/3, 100/7], [5/8, 5/9], [1/5, 2/11]⟩

/-- Environment in which the Download Configuration handler at line 489
actually executes, as a function of the widget values that have been
assigned by that point of the script run (sidebar lines 135-155 and the
tab1 widgets, lines 353-404).  Streamlit re-runs the whole script top
to bottom in a fresh namespace on every interaction, so when the button
handler body at lines 489-507 runs, the names assigned further down —
`feed_control` (lines 567-571), `online_measurements` (590),
`sampling_interval` (599), `data_analysis` (608), `safety_features`
(643) — are not yet bound in that run, for every process type.
`feed_control` is therefore `none` here; the dictionary display raises
NameError on it (entry 10) before any of the later entries is
evaluated, so the values recorded for those later fields can never be
read and are filled with inert defaults. -/
def download_env (pt org sc : String) (tr pr : ℚ × ℚ) (dos agi : Int)
    (aer : ℚ) (dur : Int) : AppEnv :=
  { process_type := pt
    organism_type := org
    scale := sc
    temp_range := tr
    ph_range := pr
    do_setpoint := dos
    agitation := agi
    aeration := aer
    duration := dur
    feed_control := none
    online_measurements := []
    sampling_interval := 0
    data_analysis := []
    safety_features := [] }

/-- Script environment for the Download Configuration handler with
process type Batch Culture and the default widget values of the claimed
scenario (temp (30.0, 37.0), pH (6.8, 7.2), DO 40, agitation 200,
aeration 0.5, duration 168): `feed_control` carries the value the
lines 567-571 assignment rule gives it for Batch Culture, namely
unbound. -/
def c8envBatch : AppEnv :=
  { process_type := "Batch Culture"
    organism_type := "CHO Cells"
    scale := "Laboratory (1-10L)"
    temp_range := (30, 37)
    ph_range := (34/5, 36/5)
    do_setpoint := 40
    agitation := 200
    aeration := 1/2
    duration := 168
    feed_control := feed_control_binding "Batch Culture" "Time-based"
    online_measurements := [("Biomass", true), ("Glucose", true), ("Oxygen Uptake", true),
      ("Capacitance", false), ("Fluorescence", false)]
    sampling_interval := 12
    data_analysis := [("Real-time OUR", true), ("Mass Balance", true),
      ("Metabolic Rates", true), ("Yield Coefficients", true)]
    safety_features := [("Pressure Relief", true), ("Emergency Stop", true),
      ("Power Backup", true), ("Sterile Filter", true), ("Biocontainment", true)] }

/-! Helper lemmas shared by the claim theorems below. -/

/-- Evaluation of `np.random.rand` for a nonnegative count. -/
lemma npRandomRand_nonneg (n : Int) (h : 0 ≤ n) (s : RandState) :
    npRandomRand n s = Except.ok
      ((List.range n.toNat).map (fun i => s.stream (s.pos + i)),
        ⟨s.stream, s.pos + n.toNat⟩) := by
  rw [npRandomRand, if_neg (not_lt.mpr h)]

/-- Closed-form value of `simulate_bioprocess` for a nonnegative
duration: each output array is the corresponding block of generator
draws, scaled, and the generator advances by five blocks. -/
lemma simulate_bioprocess_eq (c : SimConfig) (s : RandState) (h : 0 ≤ c.duration) :
    simulate_bioprocess c s = Except.ok
      ({ time := npArange c.duration
         biomass := (List.range c.duration.toNat).map
           (fun i => s.stream (s.pos + i) * 100)
         glucose := (List.range c.duration.toNat).map
           (fun i => s.stream (s.pos + c.duration.toNat + i) * 10)
         oxygen := (List.range c.duration.toNat).map
           (fun i => s.stream (s.pos + c.duration.toNat + c.duration.toNat + i) * 100)
         lactate := (List.range c.duration.toNat).map
           (fun i => s.stream (s.pos + c.duration.toNat + c.duration.toNat
             + c.duration.toNat + i) * 5)
         ammonia := (List.range c.duration.toNat).map
           (fun i => s.stream (s.pos + c.duration.toNat + c.duration.toNat
             + c.duration.toNat + c.duration.toNat + i) * 2) },
       ⟨s.stream, s.pos + c.duration.toNat + c.duration.toNat + c.duration.toNat
         + c.duration.toNat + c.duration.toNat⟩) := by
  simp only [simulate_bioprocess, npRandomRand_nonneg _ h, bind, Except.bind, pure,
    Except.pure, List.map_map, Function.comp]
  rfl

/-- Evaluation of `simulate_bioprocess` for a negative duration: the
first call to `np.random.rand` raises, and the error propagates. -/
lemma simulate_bioprocess_neg (c : SimConfig) (s : RandState) (h : c.duration < 0) :
    simulate_bioprocess c s
      = Except.error "ValueError: negative dimensions are not allowed" := by
  rw [simulate_bioprocess, npRandomRand, if_pos h]
  rfl

/-- Draws of the counterexample generator state `st0` all lie in [0,1). -/
lemma st0_valid : st0.valid := by
  intro n
  rw [st0]
  constructor
  · apply div_nonneg
    · norm_num
    · positivity
  · rw [div_lt_one (by positivity)]
    have hn : (0 : ℚ) ≤ (n : ℚ) := Nat.cast_nonneg n
    linarith

/-- Concrete run of the simulator: duration 1 from `st0`. -/
lemma sim1_eq : simulate_bioprocess (cfg 1) st0 = Except.ok (out1, ⟨st0.stream, 5⟩) := by
  rw [simulate_bioprocess_eq (cfg 1) st0 (by norm_num [cfg])]
  simp [cfg, st0, out1, npArange, List.range_succ]
  norm_num

/-- Concrete run of the simulator: duration 2 from `st0`. -/
lemma sim2_eq : simulate_bioprocess (cfg 2) st0 = Except.ok (out2, ⟨st0.stream, 10⟩) := by
  rw [simulate_bioprocess_eq (cfg 2) st0 (by norm_num [cfg])]
  simp [cfg, st0, out2, npArange, List.range_succ]
  norm_num

/-- Length of the embedded `np.arange(0, hi)`. -/
lemma npArange_length (hi : Int) : (npArange hi).length = hi.toNat := by
  rw [npArange]
  simp only [List.length_map, List.length_range]

/-- Entries of the embedded `np.arange(0, hi)`. -/
lemma npArange_getElem (hi : Int) (i : Nat) (h : i < hi.toNat) :
    (npArange hi)[i]? = some (i : Int) := by
  rw [npArange, List.getElem?_map, List.getElem?_range h]
  rfl

/-- C9: for every positive integer duration, `simulate_bioprocess`
returns six sequences (time, biomass, glucose, oxygen, lactate,
ammonia) that all have the same length, equal to the duration, and the
time sequence is exactly 0, 1, ..., duration - 1. -/
theorem c9_six_aligned_sequences (c : SimConfig) (s : RandState) (h : 0 < c.duration) :
    ∃ out s2, simulate_bioprocess c s = Except.ok (out, s2) ∧
      out.time.length = c.duration.toNat ∧
      out.biomass.length = out.time.length ∧
      out.glucose.length = out.time.length ∧
      out.oxygen.length = out.time.length ∧
      out.lactate.length = out.time.length ∧
      out.ammonia.length = out.time.length ∧
      ∀ i : Nat, i < c.duration.toNat → out.time[i]? = some (i : Int) := by
  refine ⟨_, _, simulate_bioprocess_eq c s (le_of_lt h), ?_, ?_, ?_, ?_, ?_, ?_, ?_⟩
  · exact npArange_length c.duration
  · simp only [npArange_length, List.length_map, List.length_range]
  · simp only [npArange_length, List.length_map, List.length_range]
  · simp only [npArange_length, List.length_map, List.length_range]
  · simp only [npArange_length, List.length_map, List.length_range]
  · simp only [npArange_length, List.length_map, List.length_range]
  · intro i hi
    exact npArange_getElem c.duration i hi

/-- C9 witness: instantiation at duration 2 from the state `st0`. -/
theorem c9_six_aligned_sequences_witness :
    0 < (cfg 2).duration ∧
    (∃ out s2, simulate_bioprocess (cfg 2) st0 = Except.ok (out, s2) ∧
      out.time.length = (cfg 2).duration.toNat ∧
      out.biomass.length = out.time.length ∧
      out.glucose.length = out.time.length ∧
      out.oxygen.length = out.time.length ∧
      out.lactate.length = out.time.length ∧
      out.ammonia.length = out.time.length ∧
      ∀ i : Nat, i < (cfg 2).duration.toNat → out.time[i]? = some (i : Int)) :=
  ⟨by norm_num [cfg], c9_six_aligned_sequences (cfg 2) st0 (by norm_num [cfg])⟩

/-- C1 counterexample: for duration 2 the last generated time point is
1, not the duration 2 as claimed, so the time points do not span the
closed interval up to the duration. -/
theorem c1_last_time_point_cx :
    (simulate_bioprocess (cfg 2) st0).toOption.map (fun p => p.fst.time.getLast?)
        = some (some 1) ∧
    (some (some (1 : Int)) : Option (Option Int)) ≠ some (some (cfg 2).duration) := by
  constructor
  · rw [sim2_eq]
    simp [Except.toOption, out2]
  · simp [cfg]

/-- C1 amended: for every positive duration, `simulate_bioprocess`
returns five value sequences of exactly `duration` samples each,
pairwise aligned with a shared time-point sequence that is evenly
spaced with step 1, whose first time point is 0 and whose last time
point is duration - 1 (not duration); the sample count is the duration
itself, there being no separate sample-count input. -/
theorem c1_profile_shape (c : SimConfig) (s : RandState) (h : 0 < c.duration) :
    ∃ out s2, simulate_bioprocess c s = Except.ok (out, s2) ∧
      out.biomass.length = c.duration.toNat ∧
      out.glucose.length = c.duration.toNat ∧
      out.oxygen.length = c.duration.toNat ∧
      out.lactate.length = c.duration.toNat ∧
      out.ammonia.length = c.duration.toNat ∧
      out.time.length = c.duration.toNat ∧
      out.time.head? = some 0 ∧
      out.time.getLast? = some (c.duration - 1) ∧
      ∀ i : Nat, i + 1 < c.duration.toNat →
        out.time[i + 1]? = (out.time[i]?).map (fun t => t + 1) := by
  have hd : 0 < c.duration.toNat := by omega
  refine ⟨_, _, simulate_bioprocess_eq c s (le_of_lt h), ?_, ?_, ?_, ?_, ?_, ?_, ?_, ?_, ?_⟩
  · simp only [List.length_map, List.length_range]
  · simp only [List.length_map, List.length_range]
  · simp only [List.length_map, List.length_range]
  · simp only [List.length_map, List.length_range]
  · simp only [List.length_map, List.length_range]
  · exact npArange_length c.duration
  · rw [List.head?_eq_getElem?]
    exact npArange_getElem c.duration 0 hd
  · rw [List.getLast?_eq_getElem?, npArange_length]
    have hlt : c.duration.toNat - 1 < c.duration.toNat := by omega
    rw [npArange_getElem c.duration _ hlt]
    congr 1
    omega
  · intro i hi
    have hi0 : i < c.duration.toNat := by omega
    rw [npArange_getElem c.duration _ hi, npArange_getElem c.duration _ hi0]
    simp

/-- C1 witness: instantiation at duration 2 from the state `st0`. -/
theorem c1_profile_shape_witness :
    0 < (cfg 2).duration ∧
    (∃ out s2, simulate_bioprocess (cfg 2) st0 = Except.ok (out, s2) ∧
      out.biomass.length = (cfg 2).duration.toNat ∧
      out.glucose.length = (cfg 2).duration.toNat ∧
      out.oxygen.length = (cfg 2).duration.toNat ∧
      out.lactate.length = (cfg 2).duration.toNat ∧
      out.ammonia.length = (cfg 2).duration.toNat ∧
      out.time.length = (cfg 2).duration.toNat ∧
      out.time.head? = some 0 ∧
      out.time.getLast? = some ((cfg 2).duration - 1) ∧
      ∀ i : Nat, i + 1 < (cfg 2).duration.toNat →
        out.time[i + 1]? = (out.time[i]?).map (fun t => t + 1)) :=
  ⟨by norm_num [cfg], c1_profile_shape (cfg 2) st0 (by norm_num [cfg])⟩

/-- C3 counterexample: the biomass sample at the first time point of a
run from the generator state `st0` is 50, while the logistic-growth
formula claimed by the specification gives 0.1 at t = 0; the simulator
output does not follow the formula. -/
theorem c3_formula_cx :
    (simulate_bioprocess (cfg 1) st0).toOption.map (fun p => p.fst.biomass)
        = some [50] ∧
    specBiomass 0 = 1/10 ∧
    ((50 : ℝ) : ℝ) ≠ 1/10 := by
  refine ⟨?_, ?_, by norm_num⟩
  · rw [sim1_eq]
    simp [Except.toOption, out1]
  · rw [specBiomass]
    simp [Real.exp_zero]
    norm_num

/-- C3 amended: every sample of every output sequence is a fresh
uniform draw of the numpy global generator scaled by the sequence's
constant (100 for biomass, 10 for glucose, 100 for oxygen, 5 for
lactate, 2 for ammonia); the samples are random, not values of the
logistic or exponential curves stated by the specification. -/
theorem c3_samples_are_scaled_draws (c : SimConfig) (s : RandState)
    (h : 0 ≤ c.duration) (i : Nat) (hi : i < c.duration.toNat) :
    ∃ out s2, simulate_bioprocess c s = Except.ok (out, s2) ∧
      out.biomass[i]? = some (s.stream (s.pos + i) * 100) ∧
      out.glucose[i]? = some (s.stream (s.pos + c.duration.toNat + i) * 10) ∧
      out.oxygen[i]?
        = some (s.stream (s.pos + c.duration.toNat + c.duration.toNat + i) * 100) ∧
      out.lactate[i]?
        = some (s.stream (s.pos + c.duration.toNat + c.duration.toNat
            + c.duration.toNat + i) * 5) ∧
      out.ammonia[i]?
        = some (s.stream (s.pos + c.duration.toNat + c.duration.toNat
            + c.duration.toNat + c.duration.toNat + i) * 2) := by
  refine ⟨_, _, simulate_bioprocess_eq c s h, ?_, ?_, ?_, ?_, ?_⟩ <;>
    simp [List.getElem?_map, List.getElem?_range hi]

/-- C3 witness: instantiation at duration 2, sample index 1, from the
state `st0`. -/
theorem c3_samples_are_scaled_draws_witness :
    (0 : Int) ≤ (cfg 2).duration ∧ 1 < (cfg 2).duration.toNat ∧
    (∃ out s2, simulate_bioprocess (cfg 2) st0 = Except.ok (out, s2) ∧
      out.biomass[1]? = some (st0.stream (st0.pos + 1) * 100) ∧
      out.glucose[1]? = some (st0.stream (st0.pos + (cfg 2).duration.toNat + 1) * 10) ∧
      out.oxygen[1]?
        = some (st0.stream (st0.pos + (cfg 2).duration.toNat
            + (cfg 2).duration.toNat + 1) * 100) ∧
      out.lactate[1]?
        = some (st0.stream (st0.pos + (cfg 2).duration.toNat + (cfg 2).duration.toNat
            + (cfg 2).duration.toNat + 1) * 5) ∧
      out.ammonia[1]?
        = some (st0.stream (st0.pos + (cfg 2).duration.toNat + (cfg 2).duration.toNat
            + (cfg 2).duration.toNat + (cfg 2).duration.toNat + 1) * 2)) :=
  ⟨by norm_num [cfg], by norm_num [cfg],
    c3_samples_are_scaled_draws (cfg 2) st0 (by norm_num [cfg]) 1 (by norm_num [cfg])⟩

/-- C4 counterexample: for duration 0 the simulator does not raise any
error; it returns six empty sequences and leaves the generator state
unchanged, refuting the claim that duration 0 raises InvalidArgument. -/
theorem c4_no_validation_cx :
    simulate_bioprocess (cfg 0) st0
      = Except.ok (⟨[], [], [], [], [], []⟩, ⟨st0.stream, st0.pos⟩) := by
  rw [simulate_bioprocess_eq (cfg 0) st0 (by norm_num [cfg])]
  simp [cfg, npArange]

/-- C4 amended: `simulate_bioprocess` performs no input validation and
never raises an InvalidArgument error; it succeeds for every
nonnegative duration (including 0, where it returns empty sequences),
and for a negative duration the failure is numpy's ValueError from
`np.random.rand`, not a library InvalidArgument; there is no
sample-count input to validate. -/
theorem c4_error_behavior (c : SimConfig) (s : RandState) :
    ((∃ v, simulate_bioprocess c s = Except.ok v) ↔ 0 ≤ c.duration) ∧
    (c.duration < 0 → simulate_bioprocess c s
        = Except.error "ValueError: negative dimensions are not allowed") := by
  constructor
  · constructor
    · rintro ⟨v, hv⟩
      by_contra hneg
      push_neg at hneg
      rw [simulate_bioprocess_neg c s hneg] at hv
      exact absurd hv (by simp)
    · intro h0
      exact ⟨_, simulate_bioprocess_eq c s h0⟩
  · intro hneg
    exact simulate_bioprocess_neg c s hneg

/-- C4 witness: at duration -1 the simulator fails with numpy's
ValueError, and at duration 1 it succeeds. -/
theorem c4_error_behavior_witness :
    (cfg (-1)).duration < 0 ∧
    simulate_bioprocess (cfg (-1)) st0
      = Except.error "ValueError: negative dimensions are not allowed" ∧
    (0 : Int) ≤ (cfg 1).duration ∧ (∃ v, simulate_bioprocess (cfg 1) st0 = Except.ok v) :=
  ⟨by norm_num [cfg], (c4_error_behavior (cfg (-1)) st0).2 (by norm_num [cfg]),
    by norm_num [cfg], (c4_error_behavior (cfg 1) st0).1.mpr (by norm_num [cfg])⟩

/-- C2 counterexample: two successive calls of `simulate_bioprocess`
with identical Python-level arguments read different segments of the
hidden generator state and return different outputs.  From `st0` the
first call yields biomass [50] while the immediately following call
(from the advanced generator state it leaves behind) yields
biomass [100/7]. -/
theorem c2_determinism_cx :
    (simulate_bioprocess (cfg 1) st0).toOption.map (fun p => p.fst.biomass)
        = some [50] ∧
    ((simulate_bioprocess (cfg 1) st0).toOption.bind
        (fun p => (simulate_bioprocess (cfg 1) p.snd).toOption.map
          (fun q => q.fst.biomass)))
        = some [100/7] ∧
    ([50] : List ℚ) ≠ [100/7] := by
  refine ⟨?_, ?_, by norm_num⟩
  · rw [sim1_eq]
    simp [Except.toOption, out1]
  · rw [sim1_eq]
    simp only [Except.toOption, Option.some_bind]
    rw [simulate_bioprocess_eq (cfg 1) ⟨st0.stream, 5⟩ (by norm_num [cfg])]
    simp [cfg, st0, List.range_succ]
    norm_num

/-- C2 amended: `simulate_bioprocess` is deterministic only as a
function of the duration together with the generator draws it consumes:
two calls whose durations agree and whose generator states supply the
same five blocks of draws produce identical outputs, and no other
configuration field influences the result.  Successive calls with
identical arguments consume disjoint stream segments and differ in
general. -/
theorem c2_output_determined_by_draws (c c2 : SimConfig) (s s2 : RandState)
    (hdur : c.duration = c2.duration) (h0 : 0 ≤ c.duration)
    (hs : ∀ j : Nat, j < 5 * c.duration.toNat →
      s.stream (s.pos + j) = s2.stream (s2.pos + j)) :
    (simulate_bioprocess c s).toOption.map (fun p => p.fst)
      = (simulate_bioprocess c2 s2).toOption.map (fun p => p.fst) := by
  have h02 : 0 ≤ c2.duration := hdur ▸ h0
  rw [simulate_bioprocess_eq c s h0, simulate_bioprocess_eq c2 s2 h02]
  simp only [Except.toOption, Option.map_some', Option.some.injEq]
  rw [← hdur]
  have key : ∀ off : Nat, ∀ i ∈ List.range c.duration.toNat,
      off + i < 5 * c.duration.toNat →
      s.stream (s.pos + off + i) = s2.stream (s2.pos + off + i) := by
    intro off i _ hlt
    have e1 : s.pos + off + i = s.pos + (off + i) := by omega
    have e2 : s2.pos + off + i = s2.pos + (off + i) := by omega
    rw [e1, e2]
    exact hs (off + i) hlt
  have hd : ∀ i ∈ List.range c.duration.toNat, i < c.duration.toNat := by
    intro i hi
    exact List.mem_range.mp hi
  congr 1
  · apply List.map_congr_left
    intro i hi
    have : s.pos + i = s.pos + 0 + i := by omega
    rw [this]
    have : s2.pos + i = s2.pos + 0 + i := by omega
    rw [this]
    rw [key 0 i hi (by have := hd i hi; omega)]
  · apply List.map_congr_left
    intro i hi
    rw [key c.duration.toNat i hi (by have := hd i hi; omega)]
  · apply List.map_congr_left
    intro i hi
    have e1 : s.pos + c.duration.toNat + c.duration.toNat + i
        = s.pos + (c.duration.toNat + c.duration.toNat) + i := by omega
    have e2 : s2.pos + c.duration.toNat + c.duration.toNat + i
        = s2.pos + (c.duration.toNat + c.duration.toNat) + i := by omega
    rw [e1, e2, key (c.duration.toNat + c.duration.toNat) i hi (by have := hd i hi; omega)]
  · apply List.map_congr_left
    intro i hi
    have e1 : s.pos + c.duration.toNat + c.duration.toNat + c.duration.toNat + i
        = s.pos + (c.duration.toNat + c.duration.toNat + c.duration.toNat) + i := by omega
    have e2 : s2.pos + c.duration.toNat + c.duration.toNat + c.duration.toNat + i
        = s2.pos + (c.duration.toNat + c.duration.toNat + c.duration.toNat) + i := by omega
    rw [e1, e2, key (c.duration.toNat + c.duration.toNat + c.duration.toNat) i hi
      (by have := hd i hi; omega)]
  · apply List.map_congr_left
    intro i hi
    have e1 : s.pos + c.duration.toNat + c.duration.toNat + c.duration.toNat
          + c.duration.toNat + i
        = s.pos + (c.duration.toNat + c.duration.toNat + c.duration.toNat
          + c.duration.toNat) + i := by omega
    have e2 : s2.pos + c.duration.toNat + c.duration.toNat + c.duration.toNat
          + c.duration.toNat + i
        = s2.pos + (c.duration.toNat + c.duration.toNat + c.duration.toNat
          + c.duration.toNat) + i := by omega
    rw [e1, e2, key (c.duration.toNat + c.duration.toNat + c.duration.toNat
      + c.duration.toNat) i hi (by have := hd i hi; omega)]

/-- C2 witness: two configurations that differ in every field except
the duration, run from the same generator state, produce the same
output. -/
theorem c2_output_determined_by_draws_witness :
    (cfg 1).duration = (SimConfig.mk (20, 25) (6, 8) 50 300 1 1 30 7).duration ∧
    (0 : Int) ≤ (cfg 1).duration ∧
    (∀ j : Nat, j < 5 * (cfg 1).duration.toNat →
      st0.stream (st0.pos + j) = st0.stream (st0.pos + j)) ∧
    (simulate_bioprocess (cfg 1) st0).toOption.map (fun p => p.fst)
      = (simulate_bioprocess (SimConfig.mk (20, 25) (6, 8) 50 300 1 1 30 7) st0).toOption.map
          (fun p => p.fst) :=
  ⟨by norm_num [cfg], by norm_num [cfg], fun j _ => rfl,
    c2_output_determined_by_draws (cfg 1) (SimConfig.mk (20, 25) (6, 8) 50 300 1 1 30 7)
      st0 st0 (by norm_num [cfg]) (by norm_num [cfg]) (fun j _ => rfl)⟩

/-- C5 counterexample: the biomass sequence is not monotonically
non-decreasing: from the generator state `st0` a duration-2 run yields
biomass [50, 100/3], which decreases. -/
theorem c5_monotonic_cx :
    (simulate_bioprocess (cfg 2) st0).toOption.map (fun p => p.fst.biomass)
        = some [50, 100/3] ∧
    ¬ ((50 : ℚ) ≤ 100/3) := by
  refine ⟨?_, by norm_num⟩
  rw [sim2_eq]
  simp [Except.toOption, out2]

/-- C5 amended: none of the monotonicity clauses hold (the samples are
independent random draws, and there is no product sequence at all); of
the claim only nonnegativity survives: for a generator whose draws lie
in [0,1), every sample of every output sequence — in particular every
glucose (substrate-analog) sample — is nonnegative. -/
theorem c5_nonneg_samples (c : SimConfig) (s : RandState) (hv : s.valid)
    (out : SimOutput) (s2 : RandState)
    (heq : simulate_bioprocess c s = Except.ok (out, s2)) :
    (∀ q ∈ out.glucose, 0 ≤ q) ∧ (∀ q ∈ out.biomass, 0 ≤ q) ∧
    (∀ q ∈ out.oxygen, 0 ≤ q) ∧ (∀ q ∈ out.lactate, 0 ≤ q) ∧
    (∀ q ∈ out.ammonia, 0 ≤ q) := by
  rcases le_or_lt 0 c.duration with h0 | hneg
  · rw [simulate_bioprocess_eq c s h0] at heq
    simp only [Except.ok.injEq, Prod.mk.injEq] at heq
    obtain ⟨hout, -⟩ := heq
    subst hout
    refine ⟨?_, ?_, ?_, ?_, ?_⟩ <;>
      · intro q hq
        simp only [List.mem_map, List.mem_range] at hq
        obtain ⟨i, -, rfl⟩ := hq
        exact mul_nonneg (hv _).1 (by norm_num)
  · rw [simulate_bioprocess_neg c s hneg] at heq
    exact absurd heq (by simp)

/-- C5 witness: instantiation at duration 1 from the valid state
`st0`, whose output record is `out1`. -/
theorem c5_nonneg_samples_witness :
    st0.valid ∧ simulate_bioprocess (cfg 1) st0 = Except.ok (out1, ⟨st0.stream, 5⟩) ∧
    ((∀ q ∈ out1.glucose, 0 ≤ q) ∧ (∀ q ∈ out1.biomass, 0 ≤ q) ∧
     (∀ q ∈ out1.oxygen, 0 ≤ q) ∧ (∀ q ∈ out1.lactate, 0 ≤ q) ∧
     (∀ q ∈ out1.ammonia, 0 ≤ q)) :=
  ⟨st0_valid, sim1_eq,
    c5_nonneg_samples (cfg 1) st0 st0_valid out1 ⟨st0.stream, 5⟩ sim1_eq⟩

/-- C10: for every positive integer duration and a generator whose
draws lie in [0,1), every biomass sample of `simulate_bioprocess` lies
in [0,100), every glucose sample in [0,10), every oxygen sample in
[0,100), every lactate sample in [0,5), and every ammonia sample in
[0,2). -/
theorem c10_sample_bounds (c : SimConfig) (s : RandState) (hv : s.valid)
    (h : 0 < c.duration) :
    ∃ out s2, simulate_bioprocess c s = Except.ok (out, s2) ∧
      (∀ q ∈ out.biomass, 0 ≤ q ∧ q < 100) ∧
      (∀ q ∈ out.glucose, 0 ≤ q ∧ q < 10) ∧
      (∀ q ∈ out.oxygen, 0 ≤ q ∧ q < 100) ∧
      (∀ q ∈ out.lactate, 0 ≤ q ∧ q < 5) ∧
      (∀ q ∈ out.ammonia, 0 ≤ q ∧ q < 2) := by
  refine ⟨_, _, simulate_bioprocess_eq c s (le_of_lt h), ?_, ?_, ?_, ?_, ?_⟩ <;>
    · intro q hq
      simp only [List.mem_map, List.mem_range] at hq
      obtain ⟨i, -, rfl⟩ := hq
      obtain ⟨hlo, hhi⟩ := hv _
      constructor
      · positivity
      · linarith

/-- C10 witness: instantiation at duration 1 from the valid state
`st0`. -/
theorem c10_sample_bounds_witness :
    st0.valid ∧ (0 : Int) < (cfg 1).duration ∧
    (∃ out s2, simulate_bioprocess (cfg 1) st0 = Except.ok (out, s2) ∧
      (∀ q ∈ out.biomass, 0 ≤ q ∧ q < 100) ∧
      (∀ q ∈ out.glucose, 0 ≤ q ∧ q < 10) ∧
      (∀ q ∈ out.oxygen, 0 ≤ q ∧ q < 100) ∧
      (∀ q ∈ out.lactate, 0 ≤ q ∧ q < 5) ∧
      (∀ q ∈ out.ammonia, 0 ≤ q ∧ q < 2)) :=
  ⟨st0_valid, by norm_num [cfg],
    c10_sample_bounds (cfg 1) st0 st0_valid (by norm_num [cfg])⟩

/-- C6 counterexample: for the duration-168 call from the generator
state `st0`, the biomass sample at the first time point is 50, which is
not within 1e-6 of the 0.1 the specification claims (0.1 being indeed
the value of the spec logistic curve at t = 0). -/
theorem c6_initial_values_cx :
    (simulate_bioprocess (cfg 168) st0).toOption.map (fun p => p.fst.biomass.head?)
        = some (some 50) ∧
    specBiomass 0 = 1/10 ∧
    ¬ (|(50 : ℝ) - 1/10| ≤ 1/1000000) := by
  refine ⟨?_, ?_, by rw [abs_of_nonneg (by norm_num)]; norm_num⟩
  · rw [simulate_bioprocess_eq (cfg 168) st0 (by norm_num [cfg])]
    simp only [Except.toOption, Option.map_some', Option.some.injEq]
    rw [List.head?_eq_getElem?, List.getElem?_map,
      List.getElem?_range (by norm_num [cfg] : 0 < ((cfg 168).duration).toNat)]
    simp [st0]
    norm_num
  · rw [specBiomass]
    simp [Real.exp_zero]
    norm_num

/-- C6 amended: at the first time point t = 0 of the duration-168 call,
the biomass, glucose, oxygen, lactate and ammonia samples equal 100,
10, 100, 5 and 2 times the first draw of the respective generator
block (positions pos, pos+168, pos+336, pos+504, pos+672); they are
random values, not the constants 0.1, 10.0, 0.0 of the specification
curves. -/
theorem c6_initial_values (s : RandState) :
    ∃ out s2, simulate_bioprocess (cfg 168) s = Except.ok (out, s2) ∧
      out.time.head? = some 0 ∧
      out.biomass.head? = some (s.stream s.pos * 100) ∧
      out.glucose.head? = some (s.stream (s.pos + 168) * 10) ∧
      out.oxygen.head? = some (s.stream (s.pos + 336) * 100) ∧
      out.lactate.head? = some (s.stream (s.pos + 504) * 5) ∧
      out.ammonia.head? = some (s.stream (s.pos + 672) * 2) := by
  have h168 : ((cfg 168).duration).toNat = 168 := rfl
  have h0 : (0 : Nat) < ((cfg 168).duration).toNat := by omega
  have hval : ∀ (k : ℚ) (a b : Nat), a = b →
      some (s.stream a * k) = some (s.stream b * k) := by
    intro k a b hab
    rw [hab]
  refine ⟨_, _, simulate_bioprocess_eq (cfg 168) s (by norm_num [cfg]),
    ?_, ?_, ?_, ?_, ?_, ?_⟩
  · rw [List.head?_eq_getElem?]
    exact npArange_getElem _ 0 h0
  all_goals
    rw [List.head?_eq_getElem?, List.getElem?_map, List.getElem?_range h0,
      Option.map_some']
  · exact hval 100 _ _ (by omega)
  · exact hval 10 _ _ (by omega)
  · exact hval 100 _ _ (by omega)
  · exact hval 5 _ _ (by omega)
  · exact hval 2 _ _ (by omega)

/-- C7 counterexample: at the claimed widget values, and even with the
most favorable process type (Fed-batch Culture, the one for which
lines 567-571 would later bind `feed_control`), the Download
Configuration handler raises NameError in the environment it actually
runs in, because the assignment at line 568 has not yet executed in the
script run; it produces no rows at all, so no nine-row summary and no
formatted temperature or duration string exists. -/
theorem c7_nine_rows_cx :
    config_data (download_env "Fed-batch Culture" "CHO Cells" "Laboratory (1-10L)"
        (30, 37) (34/5, 36/5) 40 200 (1/2) 168)
      = Except.error "NameError: name feed_control is not defined" ∧
    (config_data (download_env "Fed-batch Culture" "CHO Cells" "Laboratory (1-10L)"
        (30, 37) (34/5, 36/5) 40 200 (1/2) 168)).toOption.map List.length
      ≠ some 9 := by
  refine ⟨rfl, ?_⟩
  intro h
  simp [config_data, download_env, Except.toOption] at h

/-- C7 amended: the Download Configuration handler never produces
summary rows: in every script run the dictionary display at lines
490-505 is evaluated before the assignments at lines 567-571, 590,
599, 608 and 643 have executed, so the name `feed_control` is unbound
and the handler fails with NameError for every process type, organism,
scale and parameter values; no nine-row summary, no formatted
temperature-range string and no formatted duration string is ever
produced. -/
theorem c7_export_rows (pt org sc : String) (tr pr : ℚ × ℚ) (dos agi : Int)
    (aer : ℚ) (dur : Int) :
    config_data (download_env pt org sc tr pr dos agi aer dur)
      = Except.error "NameError: name feed_control is not defined" ∧
    ∀ rows : List (String × JVal),
      config_data (download_env pt org sc tr pr dos agi aer dur) ≠ Except.ok rows := by
  refine ⟨rfl, ?_⟩
  intro rows h
  simp [config_data, download_env] at h

/-- C8: pressing Download Configuration with process type Batch
Culture (or Continuous Culture) evaluates the name `feed_control`,
which lines 567-571 bind only for Fed-batch Culture and Perfusion
Culture; the handler therefore fails with a fatal NameError rather
than any InvalidArgument, contradicting the claim that no fatal
process-level failure is reachable. -/
theorem c8_feed_control_name_error :
    feed_control_binding "Batch Culture" "Time-based" = none ∧
    feed_control_binding "Continuous Culture" "Time-based" = none ∧
    feed_control_binding "Fed-batch Culture" "Time-based" = some "Time-based" ∧
    config_data c8envBatch
      = Except.error "NameError: name feed_control is not defined" := by
  exact ⟨rfl, rfl, rfl, rfl⟩

end Biopai
